import Mathlib

/-!
Verification of the `lights` DMX serial transport (`src/csrc/dmx.c`,
`src/include/dmx.h`) against its natural-language specification.

The C file is a thin adapter over OS serial primitives, with two
platform branches selected by the preprocessor: a Windows branch
(CreateFileA / GetCommState / SetCommState / SetCommBreak / Sleep /
ClearCommBreak / ReadFile / WriteFile / CloseHandle) and a POSIX branch
(open / tcgetattr / cfsetispeed / cfsetospeed / tcsetattr / tcsendbreak /
usleep / write / read / close).

We embed both branches shallowly.  The OS primitives are not part of the
repository, so each embedded function is parameterised by the outcome the
primitives report on this call (an "environment"); the embedded body
mirrors the C control flow over those outcomes exactly.  Where a POSIX
guarantee about a primitive's C-level return value is needed (for example
that a failing syscall returns exactly -1 and sets errno, or that a
non-blocking read with no data pending returns -1 with errno EAGAIN), it
is recorded in the mapping from abstract outcome to C integer and noted
in a comment at that definition.
-/

/-! ## POSIX termios model

Constants use the Linux numeric values of the termios flag macros.
`B250000` is modelled as the speed code meaning 250000 baud (the C source
passes a macro of that name to `cfsetispeed` / `cfsetospeed`). -/

def CS8 : Nat := 0x30

def CSTOPB : Nat := 0x40

def PARENB : Nat := 0x100

def B250000 : Nat := 250000

/-- The slice of `struct termios` the program touches: the input and
output speed fields and the control-flag word. -/
structure Termios where
  ispeed : Nat
  ospeed : Nat
  c_cflag : Nat
deriving DecidableEq, Repr

/-- The effect of `cfsetispeed(&t, s)` on the structure (its `int` return
value is ignored by the program). -/
def cfsetispeed (t : Termios) (s : Nat) : Termios := { t with ispeed := s }

/-- The effect of `cfsetospeed(&t, s)` on the structure (its `int` return
value is ignored by the program). -/
def cfsetospeed (t : Termios) (s : Nat) : Termios := { t with ospeed := s }

/-- Environment of one POSIX `dmx_open` call: the value `open(2)` returns,
whether `tcgetattr` / `tcsetattr` succeed, the line configuration the
device holds before the call, and the (indeterminate) contents the local
`struct termios options` would have if `tcgetattr` failed, since the C
code never initialises it and ignores the `tcgetattr` return value. -/
structure UnixOpenEnv where
  openRet : Int
  tcgetattrOk : Bool
  deviceCfg : Termios
  junk : Termios
  tcsetattrOk : Bool
deriving DecidableEq, Repr

/-- POSIX `dmx_open`, from the source:

    int fd = open(port, O_RDWR | O_NOCTTY | O_NONBLOCK);
    if (fd < 0) return -1;
    struct termios options;
    tcgetattr(fd, &options);
    cfsetispeed(&options, B250000);
    cfsetospeed(&options, B250000);
    options.c_cflag |= CS8 | CSTOPB;
    tcsetattr(fd, TCSANOW, &options);
    return fd;

The result pairs the C return value with the line configuration the
device holds after the call.  The return values of `tcgetattr` and
`tcsetattr` are discarded by the source, so the function returns `fd`
regardless of them; a failed `tcsetattr` leaves the device configuration
unchanged. -/
def dmx_open_unix (env : UnixOpenEnv) : Int × Termios :=
  if env.openRet < 0 then (-1, env.deviceCfg)
  else
    let options := if env.tcgetattrOk then env.deviceCfg else env.junk
    let options := cfsetispeed options B250000
    let options := cfsetospeed options B250000
    let options := { options with c_cflag := options.c_cflag ||| (CS8 ||| CSTOPB) }
    let deviceCfg := if env.tcsetattrOk then options else env.deviceCfg
    (env.openRet, deviceCfg)

/-! ## Windows DCB model -/

def NOPARITY : Nat := 0

def TWOSTOPBITS : Nat := 2

/-- The slice of the Windows `DCB` structure the program touches, plus an
opaque field standing for everything `GetCommState` reads that the
program does not modify. -/
structure Dcb where
  BaudRate : Nat
  ByteSize : Nat
  Parity : Nat
  StopBits : Nat
  other : Nat
deriving DecidableEq, Repr

/-- Numeric value of the pointer `INVALID_HANDLE_VALUE`, which is
`(HANDLE)(-1)` on a 64-bit platform. -/
def INVALID_HANDLE_VALUE : Nat := 2 ^ 64 - 1

/-- The C cast `(int)(intptr_t)h` applied to a 64-bit handle value:
truncation to the low 32 bits read as a two's-complement signed int. -/
def intOfIntptr (h : Nat) : Int :=
  let v : Nat := h % 2 ^ 32
  if v < 2 ^ 31 then (v : Int) else (v : Int) - 2 ^ 32

/-- Environment of one Windows `dmx_open` call: the handle value
`CreateFileA` returns and whether `GetCommState` / `SetCommState`
succeed, plus the device's prior comm state. -/
structure WinOpenEnv where
  createFileHandle : Nat
  getCommStateOk : Bool
  deviceDcb : Dcb
  setCommStateOk : Bool
deriving DecidableEq, Repr

/-- Windows `dmx_open`, from the source: open the port with CreateFileA,
read the comm state, set 250000 baud / 8 data bits / NOPARITY /
TWOSTOPBITS, write the comm state back; on either comm-state failure the
handle is closed with CloseHandle and -1 returned; on success the handle
is returned through the cast `(int)(intptr_t)handle`.

The result triple is (C return value, device comm state after the call,
whether the OS handle is still open when the function returns). -/
def dmx_open_win (env : WinOpenEnv) : Int × Dcb × Bool :=
  if env.createFileHandle = INVALID_HANDLE_VALUE then
    (-1, env.deviceDcb, false)
  else if env.getCommStateOk = false then
    (-1, env.deviceDcb, false)
  else
    let dcb := { env.deviceDcb with
                 BaudRate := 250000, ByteSize := 8,
                 Parity := NOPARITY, StopBits := TWOSTOPBITS }
    if env.setCommStateOk = false then
      (-1, env.deviceDcb, false)
    else
      (intOfIntptr env.createFileHandle, dcb, true)

/-! ## Read -/

/-- Outcome of one call of POSIX `read(2)` on the descriptor `dmx_open`
configured (it sets `O_NONBLOCK` at open time):
* `data bs`: the call delivered the bytes `bs` into the buffer and
  returned `bs.length` (an empty `bs` is end-of-file);
* `noDataNonblock`: no data was currently available; POSIX specifies
  that a read from a descriptor with `O_NONBLOCK` set and no data
  pending returns -1 with `errno = EAGAIN`;
* `err e`: the call failed with some other errno `e`, returning -1. -/
inductive ReadOutcome where
  | data (bytes : List Nat)
  | noDataNonblock
  | err (e : Nat)
deriving DecidableEq, Repr

/-- The C-level `int` value `read(2)` returns for each outcome, per the
POSIX contract just described. -/
def readRetUnix : ReadOutcome → Int
  | .data bs => bs.length
  | .noDataNonblock => -1
  | .err _ => -1

/-- POSIX `dmx_read_frame`, from the source:

    int n = read(fd, buffer, max_len);
    if (n < 0) return -1;
    return n;

The result pairs the C return value with the buffer contents after the
call (a successful read of `n` bytes overwrites the first `n` cells). -/
def dmx_read_frame_unix (o : ReadOutcome) (buffer : List Nat) : Int × List Nat :=
  let n := readRetUnix o
  let buffer := match o with
    | .data bs => bs ++ buffer.drop bs.length
    | _ => buffer
  if n < 0 then (-1, buffer) else (n, buffer)

/-- Outcome of one Windows `ReadFile` call: either it succeeds, storing
`bytes` in the buffer and their count in `bytes_read`, or it fails. -/
inductive WinReadOutcome where
  | data (bytes : List Nat)
  | err (e : Nat)
deriving DecidableEq, Repr

/-- Windows `dmx_read_frame`, from the source: `ReadFile` once; on
failure return -1, otherwise return `(int)bytes_read`. -/
def dmx_read_frame_win (o : WinReadOutcome) (buffer : List Nat) : Int × List Nat :=
  match o with
  | .err _ => (-1, buffer)
  | .data bs => ((bs.length : Int), bs ++ buffer.drop bs.length)

/-! ## Write -/

/-- Outcome of one call of the underlying write primitive (`write(2)` on
POSIX, `WriteFile` on Windows): it accepted `n` bytes, or it failed with
code `e`.  On POSIX a failing `write(2)` returns exactly -1 (and sets
errno); `writeRetUnix` records that contract. -/
inductive WriteOutcome where
  | accepted (n : Nat)
  | err (e : Nat)
deriving DecidableEq, Repr

/-- Boolean error test on a write outcome. -/
def WriteOutcome.isErr : WriteOutcome → Bool
  | .accepted _ => false
  | .err _ => true

/-- The C-level `int` value `write(2)` returns for each outcome. -/
def writeRetUnix : WriteOutcome → Int
  | .accepted n => n
  | .err _ => -1

/-- Record of one invocation of the underlying write primitive: the data
pointer contents and the byte count the caller of the primitive passed. -/
structure WriteCall where
  data : List Nat
  length : Nat
deriving DecidableEq, Repr

/-- POSIX `dmx_write`, from the source:

    return write(fd, data, length);

The primitive is invoked once with the caller's `data` and `length`
verbatim and its return value is forwarded unchanged.  The result pairs
the C return value with the list of primitive invocations made. -/
def dmx_write_unix (data : List Nat) (length : Nat)
    (prim : List Nat → Nat → WriteOutcome) : Int × List WriteCall :=
  (writeRetUnix (prim data length), [⟨data, length⟩])

/-- Windows `dmx_write`, from the source: `WriteFile` once with the
caller's `data` and `length`; on failure return -1, otherwise return
`(int)bytes_written`. -/
def dmx_write_win (data : List Nat) (length : Nat)
    (prim : List Nat → Nat → WriteOutcome) : Int × List WriteCall :=
  match prim data length with
  | .err _ => (-1, [⟨data, length⟩])
  | .accepted n => ((n : Int), [⟨data, length⟩])

/-! ## send_break as a trace of line-level operations

`dmx_send_break` performs a fixed sequence of primitive calls with no
branching.  We record that sequence as a trace and give it a line-level
semantics: the serial line starts in MARK, each operation may switch the
line state and/or hold the current state for a guaranteed minimum number
of microseconds. -/

inductive LineState where
  | mark
  | brk
deriving DecidableEq, Repr

/-- One primitive operation appearing in a `dmx_send_break` body.
`tcsendbreakDefault` is `tcsendbreak(fd, 0)`: POSIX specifies that with
duration 0 it transmits zero-valued bits (BREAK) for at least 0.25
seconds and then the line idles at MARK again; we record the guaranteed
minimum of 250000 microseconds.  `usleep us` suspends for at least `us`
microseconds; `winSleep ms` is the Windows `Sleep(ms)`, at least
`1000 * ms` microseconds.  `setCommBreak` / `clearCommBreak` switch the
line into / out of the BREAK state and return immediately. -/
inductive BreakOp where
  | tcsendbreakDefault
  | usleep (us : Nat)
  | setCommBreak
  | winSleep (ms : Nat)
  | clearCommBreak
deriving DecidableEq, Repr

/-- Trace of the POSIX `dmx_send_break` body, from the source:

    tcsendbreak(fd, 0);
    usleep(12);

(the `int` return values of both primitives are discarded). -/
def dmx_send_break_unix_trace : List BreakOp :=
  [.tcsendbreakDefault, .usleep 12]

/-- Trace of the Windows `dmx_send_break` body, from the source:

    SetCommBreak(handle);
    Sleep(1);
    ClearCommBreak(handle);

(the return values of all three primitives are discarded, and nothing
follows `ClearCommBreak` before the function returns). -/
def dmx_send_break_win_trace : List BreakOp :=
  [.setCommBreak, .winSleep 1, .clearCommBreak]

/-- Line-level semantics of a trace: starting from line state `s`, the
list of (line state, guaranteed minimum hold in microseconds) segments
the trace realises before the function returns. -/
def segGo : LineState → List BreakOp → List (LineState × Nat)
  | _, [] => []
  | s, op :: rest =>
    match op with
    | .tcsendbreakDefault => (LineState.brk, 250000) :: segGo .mark rest
    | .usleep us => (s, us) :: segGo s rest
    | .setCommBreak => segGo .brk rest
    | .winSleep ms => (s, 1000 * ms) :: segGo s rest
    | .clearCommBreak => segGo .mark rest

/-- Segments realised by a `dmx_send_break` body; the line idles at MARK
before the call. -/
def segmentsOf (tr : List BreakOp) : List (LineState × Nat) := segGo .mark tr

/-- Line state a trace leaves the line in when the function returns. -/
def finalGo : LineState → List BreakOp → LineState
  | s, [] => s
  | s, op :: rest =>
    finalGo
      (match op with
       | .tcsendbreakDefault => .mark
       | .setCommBreak => .brk
       | .clearCommBreak => .mark
       | _ => s) rest

/-- Final line state of a `dmx_send_break` body. -/
def finalStateOf (tr : List BreakOp) : LineState := finalGo .mark tr

/-- The sequencing property the specification ascribes to `send_break`:
before returning, the body holds BREAK for at least 88 microseconds and
then holds MARK for at least 8 microseconds, and does nothing else to
the line. -/
def SendBreakSpec (tr : List BreakOp) : Prop :=
  ∃ b m, 88 ≤ b ∧ 8 ≤ m ∧ segmentsOf tr = [(.brk, b), (.mark, m)]

/-! ## close and send_break as outcome-insensitive procedures -/

/-- Outcome of a `void`-adjacent OS primitive whose return value the
program discards: `close(2)`, `CloseHandle`, `tcsendbreak`, `usleep`,
`SetCommBreak`, `ClearCommBreak`. -/
inductive SysOutcome where
  | ok
  | err (e : Nat)
deriving DecidableEq, Repr

/-- POSIX `dmx_close`, from the source: `close(fd);` with the `int`
return value discarded.  The result pairs the (void) return with the
number of `close(2)` calls made. -/
def dmx_close_unix (_closeRet : SysOutcome) : Unit × Nat :=
  ((), 1)

/-- Windows `dmx_close`, from the source: `CloseHandle(handle);` with the
`BOOL` return value discarded. -/
def dmx_close_win (_closeHandleRet : SysOutcome) : Unit × Nat :=
  ((), 1)

/-- POSIX `dmx_send_break` as a function of the outcomes its two
primitives report: both return values are discarded, the body performs
the fixed trace and returns void. -/
def dmx_send_break_unix (_tcsendbreakRet _usleepRet : SysOutcome) : Unit × List BreakOp :=
  ((), dmx_send_break_unix_trace)

/-- Windows `dmx_send_break` as a function of the outcomes its three
primitives report: all return values are discarded, the body performs
the fixed trace and returns void. -/
def dmx_send_break_win (_setRet _sleepRet _clearRet : SysOutcome) : Unit × List BreakOp :=
  ((), dmx_send_break_win_trace)

/-! ## Loopback fixture

Modelled from the spec: the loopback fixture of the round-trip testable
property ("write followed by a compatible read on a loopback-configured
pair returns exactly L bytes and byte-for-byte equal content") is test
apparatus, not code under src/.  We model it as a shared pending-byte
queue: the write primitive on one end accepts every byte offered and
appends it to the queue; the read primitive on the other end delivers up
to `maxLen` queued bytes, or reports the non-blocking no-data condition
when the queue is empty. -/
structure Loopback where
  pending : List Nat
deriving DecidableEq, Repr

/-- Write primitive of the loopback fixture: accepts all `length` bytes
and appends them to the pending queue. -/
def loopbackWritePrim (st : Loopback) (data : List Nat) (length : Nat) :
    WriteOutcome × Loopback :=
  (.accepted length, ⟨st.pending ++ data.take length⟩)

/-- Read primitive of the loopback fixture: delivers up to `maxLen`
pending bytes, or the no-data condition when none are pending. -/
def loopbackReadPrim (st : Loopback) (maxLen : Nat) : ReadOutcome × Loopback :=
  if st.pending = [] then (.noDataNonblock, st)
  else (.data (st.pending.take maxLen), ⟨st.pending.drop maxLen⟩)

/-- One round trip through the fixture: `dmx_write` of all of `data` on
end A, then `dmx_read_frame` on end B into `readBuf`.  The result is
(write return, read return, read buffer contents after the call). -/
def loopbackRoundTrip (data : List Nat) (readBuf : List Nat) : Int × Int × List Nat :=
  let st0 : Loopback := ⟨[]⟩
  let wret := (dmx_write_unix data data.length
    (fun d l => (loopbackWritePrim st0 d l).1)).1
  let st1 := (loopbackWritePrim st0 data data.length).2
  let o := (loopbackReadPrim st1 readBuf.length).1
  let r := dmx_read_frame_unix o readBuf
  (wret, r.1, r.2)

/-! ## Claim theorems -/

/-- Claim C1.  The claim says a POSIX `dmx_read_frame` call with no data
currently available returns 0; the code returns -1 there.  `dmx_open`
sets `O_NONBLOCK`, so when no data is pending `read(2)` returns -1 with
`errno = EAGAIN`; the code tests only `n < 0` and never inspects errno,
so the no-data condition is reported as the failure sentinel -1, not as
success with zero bytes, contradicting the header documentation
"Number of bytes read (0 if no data available)". -/
theorem dmx_read_frame_noData_returns_neg_one :
    (dmx_read_frame_unix .noDataNonblock (List.replicate 16 0)).1 = -1 ∧
      (dmx_read_frame_unix .noDataNonblock (List.replicate 16 0)).1 ≠ 0 := by
  constructor <;> decide

/-- Baseline device configuration used in concrete open scenarios. -/
def termios0 : Termios := { ispeed := 9600, ospeed := 9600, c_cflag := 0 }

/-- Concrete POSIX open environment in which `open(2)` succeeds with
descriptor 3 and `tcsetattr` fails. -/
def c2Env : UnixOpenEnv :=
  { openRet := 3, tcgetattrOk := true, deviceCfg := termios0,
    junk := termios0, tcsetattrOk := false }

/-- Claim C2.  The claim says `open` returns a failure whenever applying
the line configuration fails.  In the POSIX branch the return values of
`tcgetattr` and `tcsetattr` are discarded: with `open(2)` succeeding
(descriptor 3) and `tcsetattr` failing, `dmx_open` returns 3 — a success
value — and the device keeps its previous, unconfigured line settings. -/
theorem dmx_open_config_failure_ignored :
    (dmx_open_unix c2Env).1 = 3 ∧
      ¬ (dmx_open_unix c2Env).1 < 0 ∧
      (dmx_open_unix c2Env).2 = termios0 := by
  refine ⟨by decide, by decide, by decide⟩

/-- Concrete POSIX open environment in which every primitive succeeds
but the device's prior configuration has parity enabled (`PARENB`). -/
def c4Env : UnixOpenEnv :=
  { openRet := 3, tcgetattrOk := true,
    deviceCfg := { ispeed := 9600, ospeed := 9600, c_cflag := PARENB },
    junk := termios0, tcsetattrOk := true }

/-- Claim C4.  The claim says a successful `open` leaves the line set to
no parity regardless of the prior configuration.  The POSIX branch only
ORs `CS8 | CSTOPB` into `c_cflag` and never clears `PARENB`, so a device
that previously had parity enabled still has it enabled after a fully
successful `dmx_open` (return value 3, all primitives succeeding). -/
theorem dmx_open_leaves_parity_enabled :
    (dmx_open_unix c4Env).1 = 3 ∧
      ((dmx_open_unix c4Env).2.c_cflag &&& PARENB) = PARENB := by
  refine ⟨by decide, by decide⟩

/-- Baseline Windows device comm state used in concrete open scenarios. -/
def dcb0 : Dcb :=
  { BaudRate := 9600, ByteSize := 7, Parity := 1, StopBits := 0, other := 5 }

/-- Concrete Windows open environment: `CreateFileA` returns the valid
handle value `2^31` and both comm-state calls succeed. -/
def c3Env : WinOpenEnv :=
  { createFileHandle := 2 ^ 31, getCommStateOk := true,
    deviceDcb := dcb0, setCommStateOk := true }

/-- Claim C3, counterexample.  The claim says every successful `open`
return is non-negative, so success and failure are distinguishable by
sign.  In the Windows branch the success value is `(int)(intptr_t)handle`:
for the valid handle value `2^31` the fully successful call (the handle
stays open and configured) returns `-2^31`, a negative value, so sign
does not separate success from failure. -/
theorem dmx_open_win_success_can_be_negative :
    (dmx_open_win c3Env).2.2 = true ∧ (dmx_open_win c3Env).1 < 0 := by
  refine ⟨by decide, by decide⟩

/-- Helper: the truncating cast of a handle value is non-negative exactly
when the low 32 bits of the value are below `2^31`. -/
theorem intOfIntptr_nonneg_iff (h : Nat) :
    0 ≤ intOfIntptr h ↔ h % 2 ^ 32 < 2 ^ 31 := by
  have hb : h % 2 ^ 32 < 2 ^ 32 := Nat.mod_lt _ (by norm_num)
  simp only [intOfIntptr]
  split <;> omega

/-- Claim C3, amended.  On the POSIX branch sign does separate the two:
a failing `open(2)` gives return -1 and a succeeding one gives back the
non-negative descriptor.  On the Windows branch every failure path
returns -1, and the success return is the handle truncated to a signed
32-bit integer, which is non-negative exactly when the low 32 bits of
the handle value are below `2^31` — not guaranteed for an arbitrary
handle value. -/
theorem dmx_open_sign_discipline :
    (∀ env : UnixOpenEnv, env.openRet < 0 → (dmx_open_unix env).1 = -1) ∧
    (∀ env : UnixOpenEnv, 0 ≤ env.openRet →
      (dmx_open_unix env).1 = env.openRet ∧ 0 ≤ (dmx_open_unix env).1) ∧
    (∀ env : WinOpenEnv,
      (env.createFileHandle = INVALID_HANDLE_VALUE ∨
        env.getCommStateOk = false ∨ env.setCommStateOk = false) →
      (dmx_open_win env).1 = -1) ∧
    (∀ env : WinOpenEnv,
      env.createFileHandle ≠ INVALID_HANDLE_VALUE →
      env.getCommStateOk = true → env.setCommStateOk = true →
      (dmx_open_win env).1 = intOfIntptr env.createFileHandle ∧
        (0 ≤ (dmx_open_win env).1 ↔ env.createFileHandle % 2 ^ 32 < 2 ^ 31)) := by
  refine ⟨?_, ?_, ?_, ?_⟩
  · intro env h
    simp [dmx_open_unix, h]
  · intro env h
    have h' : ¬ env.openRet < 0 := not_lt.mpr h
    exact ⟨by simp [dmx_open_unix, h'], by simp [dmx_open_unix, h']; exact h⟩
  · intro env h
    rcases h with h | h | h <;> simp [dmx_open_win, h]
  · intro env h1 h2 h3
    refine ⟨by simp [dmx_open_win, h1, h2, h3], ?_⟩
    rw [show (dmx_open_win env).1 = intOfIntptr env.createFileHandle from by
      simp [dmx_open_win, h1, h2, h3]]
    exact intOfIntptr_nonneg_iff env.createFileHandle

/-- Concrete environment for a POSIX open whose `open(2)` call fails. -/
def uEnvFail : UnixOpenEnv :=
  { openRet := -1, tcgetattrOk := true, deviceCfg := termios0,
    junk := termios0, tcsetattrOk := true }

/-- Concrete environment for a fully successful POSIX open. -/
def uEnvOk : UnixOpenEnv :=
  { openRet := 3, tcgetattrOk := true, deviceCfg := termios0,
    junk := termios0, tcsetattrOk := true }

/-- Concrete environment for a Windows open whose `SetCommState` fails. -/
def wEnvSetFail : WinOpenEnv :=
  { createFileHandle := 4, getCommStateOk := true,
    deviceDcb := dcb0, setCommStateOk := false }

/-- Concrete environment for a fully successful Windows open with the
small handle value 4. -/
def wEnvOk : WinOpenEnv :=
  { createFileHandle := 4, getCommStateOk := true,
    deviceDcb := dcb0, setCommStateOk := true }

/-- Witness for `dmx_open_sign_discipline` at concrete environments: a
failing POSIX open, a succeeding POSIX open with descriptor 3, a Windows
open whose `SetCommState` fails, and a fully successful Windows open
with the small handle value 4. -/
theorem dmx_open_sign_discipline_witness :
    (dmx_open_unix uEnvFail).1 = -1 ∧
    (dmx_open_unix uEnvOk).1 = 3 ∧
    (dmx_open_win wEnvSetFail).1 = -1 ∧
    (dmx_open_win wEnvOk).1 = intOfIntptr 4 := by
  refine ⟨dmx_open_sign_discipline.1 _ (by decide),
    (dmx_open_sign_discipline.2.1 _ (by decide)).1,
    dmx_open_sign_discipline.2.2.1 _ (Or.inr (Or.inr rfl)),
    (dmx_open_sign_discipline.2.2.2 _ (by decide) rfl rfl).1⟩

/-- Claim C5, counterexample.  The claim says every `send_break` holds
BREAK at least 88 microseconds, returns the line to MARK, and then holds
MARK at least 8 microseconds before returning.  The Windows body is
`SetCommBreak; Sleep(1); ClearCommBreak;` and returns immediately after
`ClearCommBreak`: its realised segments are `[(brk, 1000)]` with no MARK
hold at all, so the claimed shape (a BREAK segment followed by a MARK
segment of at least 8 microseconds) does not hold of it. -/
theorem dmx_send_break_win_no_mab_hold :
    ¬ SendBreakSpec dmx_send_break_win_trace := by
  rintro ⟨b, m, hb, hm, h⟩
  simp [SendBreakSpec, segmentsOf, segGo, dmx_send_break_win_trace] at h

/-- Claim C5, amended.  The POSIX body satisfies the full claimed
sequence: `tcsendbreak(fd, 0)` holds BREAK for at least 250000
microseconds (at least the 88-microsecond DMX minimum) and returns the
line to MARK, then `usleep(12)` holds MARK for 12 microseconds (at
least the 8-microsecond MAB minimum) before returning.  The Windows
body holds BREAK for at least 1000 microseconds and does return the
line to MARK via `ClearCommBreak`, but returns immediately afterwards
with no MARK hold before return. -/
theorem dmx_send_break_timing :
    SendBreakSpec dmx_send_break_unix_trace ∧
    segmentsOf dmx_send_break_win_trace = [(.brk, 1000)] ∧
    88 ≤ 1000 ∧
    finalStateOf dmx_send_break_win_trace = .mark := by
  exact ⟨⟨250000, 12, by norm_num, by norm_num, rfl⟩, rfl, by norm_num, rfl⟩

/-- Claim C6.  Both branches of `dmx_write` invoke the underlying write
primitive exactly once (the invocation list has length one, so there is
no retry loop), return the byte count the primitive accepted — which the
transport forwards even when it is less than the requested length — and
return the failure sentinel -1 exactly when the primitive reports an
error. -/
theorem dmx_write_single_call :
    ∀ (data : List Nat) (length : Nat) (prim : List Nat → Nat → WriteOutcome),
      (dmx_write_unix data length prim).2.length = 1 ∧
      (dmx_write_win data length prim).2.length = 1 ∧
      (∀ n, prim data length = .accepted n →
        (dmx_write_unix data length prim).1 = n ∧
        (dmx_write_win data length prim).1 = n) ∧
      (∀ e, prim data length = .err e →
        (dmx_write_unix data length prim).1 = -1 ∧
        (dmx_write_win data length prim).1 = -1) ∧
      ((dmx_write_unix data length prim).1 < 0 ↔ (prim data length).isErr = true) ∧
      ((dmx_write_win data length prim).1 < 0 ↔ (prim data length).isErr = true) := by
  intro data length prim
  rcases ho : prim data length with n | e <;>
    simp [dmx_write_unix, dmx_write_win, writeRetUnix, WriteOutcome.isErr, ho]

/-- Witness for `dmx_write_single_call`: a primitive that accepts 2 of
the 2 offered bytes yields return value 2, and a primitive that fails
with errno 5 yields return value -1. -/
theorem dmx_write_single_call_witness :
    (dmx_write_unix [0, 5] 2 (fun _ _ => .accepted 2)).1 = 2 ∧
    (dmx_write_unix [0, 5] 2 (fun _ _ => .err 5)).1 = -1 := by
  exact ⟨((dmx_write_single_call [0, 5] 2 _).2.2.1 2 rfl).1,
    ((dmx_write_single_call [0, 5] 2 _).2.2.2.1 5 rfl).1⟩

/-- Claim C8.  Both branches of `dmx_write` hand the caller's buffer and
length to the underlying write primitive verbatim: the single primitive
invocation carries exactly the caller's `data` and `length`, for every
length (including lengths above the 513-byte DMX ceiling) and every
buffer content (byte 0, the start code, included, uninspected and
unaltered). -/
theorem dmx_write_forwards_args_verbatim :
    ∀ (data : List Nat) (length : Nat) (prim : List Nat → Nat → WriteOutcome),
      (dmx_write_unix data length prim).2 = [⟨data, length⟩] ∧
      (dmx_write_win data length prim).2 = [⟨data, length⟩] := by
  intro data length prim
  refine ⟨rfl, ?_⟩
  rcases ho : prim data length with n | e <;> simp [dmx_write_win, ho]

/-- Claim C7.  Round-trip law on the loopback fixture: writing all of
`data` (any length L with 1 ≤ L ≤ 513) on one end and then reading on
the other end with a buffer of at least L cells returns L from the
write, L from the read, and leaves exactly the written bytes at the
front of the read buffer. -/
theorem loopback_round_trip :
    ∀ (data readBuf : List Nat),
      1 ≤ data.length → data.length ≤ 513 → data.length ≤ readBuf.length →
      loopbackRoundTrip data readBuf =
        ((data.length : Int), (data.length : Int),
          data ++ readBuf.drop data.length) := by
  intro data readBuf h1 _h2 h3
  have hne : data ≠ [] := List.ne_nil_of_length_pos h1
  have htake : data.take readBuf.length = data := List.take_of_length_le h3
  simp [loopbackRoundTrip, dmx_write_unix, loopbackWritePrim, loopbackReadPrim,
    dmx_read_frame_unix, writeRetUnix, readRetUnix, hne, htake, List.take_length]

/-- Witness for `loopback_round_trip`: the spec's scenario frame
`[0x00, 0x01, 0xFF]` written and read back through a 16-cell buffer. -/
theorem loopback_round_trip_witness :
    loopbackRoundTrip [0, 1, 255] (List.replicate 16 0) =
      (3, 3, [0, 1, 255] ++ (List.replicate 16 0).drop 3) := by
  exact loopback_round_trip [0, 1, 255] (List.replicate 16 0)
    (by decide) (by decide) (by decide)

/-- Claim C9.  Every failure path of `dmx_open`, `dmx_write` and
`dmx_read_frame`, in both platform branches, returns the exact value -1:
a failing `open(2)` (POSIX), each of the three Windows open failure
paths, a negative-returning `read(2)` (POSIX), a failing `ReadFile`
(Windows), a failing `write(2)` (POSIX, whose own POSIX contract makes
the forwarded value exactly -1), and a failing `WriteFile` (Windows). -/
theorem dmx_failure_returns_neg_one :
    (∀ env : UnixOpenEnv, env.openRet < 0 → (dmx_open_unix env).1 = -1) ∧
    (∀ env : WinOpenEnv,
      (env.createFileHandle = INVALID_HANDLE_VALUE ∨
        env.getCommStateOk = false ∨ env.setCommStateOk = false) →
      (dmx_open_win env).1 = -1) ∧
    (∀ (o : ReadOutcome) (buf : List Nat),
      readRetUnix o < 0 → (dmx_read_frame_unix o buf).1 = -1) ∧
    (∀ (e : Nat) (buf : List Nat), (dmx_read_frame_win (.err e) buf).1 = -1) ∧
    (∀ (data : List Nat) (length e : Nat) (prim : List Nat → Nat → WriteOutcome),
      prim data length = .err e →
      (dmx_write_unix data length prim).1 = -1 ∧
      (dmx_write_win data length prim).1 = -1) := by
  refine ⟨?_, ?_, ?_, ?_, ?_⟩
  · intro env h
    simp [dmx_open_unix, h]
  · intro env h
    rcases h with h | h | h <;> simp [dmx_open_win, h]
  · intro o buf h
    simp [dmx_read_frame_unix, h]
  · intro e buf
    rfl
  · intro data length e prim ho
    exact ⟨by simp [dmx_write_unix, writeRetUnix, ho], by simp [dmx_write_win, ho]⟩

/-- Witness for `dmx_failure_returns_neg_one` at concrete failing
inputs on each operation. -/
theorem dmx_failure_returns_neg_one_witness :
    (dmx_open_unix uEnvFail).1 = -1 ∧
    (dmx_open_win wEnvSetFail).1 = -1 ∧
    (dmx_read_frame_unix (.err 5) (List.replicate 4 0)).1 = -1 ∧
    (dmx_write_unix [0] 1 (fun _ _ => .err 5)).1 = -1 := by
  exact ⟨dmx_failure_returns_neg_one.1 uEnvFail (by decide),
    dmx_failure_returns_neg_one.2.1 wEnvSetFail (Or.inr (Or.inr rfl)),
    dmx_failure_returns_neg_one.2.2.1 (.err 5) (List.replicate 4 0) (by decide),
    (dmx_failure_returns_neg_one.2.2.2.2 [0] 1 5 _ rfl).1⟩

/-- Claim C10.  `dmx_close` and `dmx_send_break` return void normally on
every outcome of the primitives they call and their observable behaviour
(return value, primitive-call count, line trace) is the same whatever
those outcomes are: a failure of `close(2)`, `CloseHandle`,
`tcsendbreak`, `usleep`, `SetCommBreak`, `Sleep` or `ClearCommBreak` is
never observable to the caller. -/
theorem dmx_close_send_break_ignore_errors :
    ∀ (o o' a b a' b' x y z x' y' z' : SysOutcome),
      dmx_close_unix o = ((), 1) ∧
      dmx_close_win o = ((), 1) ∧
      dmx_close_unix o = dmx_close_unix o' ∧
      dmx_close_win o = dmx_close_win o' ∧
      dmx_send_break_unix a b = ((), dmx_send_break_unix_trace) ∧
      dmx_send_break_unix a b = dmx_send_break_unix a' b' ∧
      dmx_send_break_win x y z = ((), dmx_send_break_win_trace) ∧
      dmx_send_break_win x y z = dmx_send_break_win x' y' z' := by
  intros
  exact ⟨rfl, rfl, rfl, rfl, rfl, rfl, rfl, rfl⟩
